import Mathlib

/-!
# Options-Tracker: alert classification and price-refresh cycle

Shallow embedding of the core logic of `frontend/src/components/Dashboard.js`:
the alert classifier `calculateAlertStatus`, the per-tick price-refresh routine
`fetchStockPrices` with its mock-price fallback, and the polling `useEffect`
(interval scheduling, immediate fetch, cleanup).  Prices are modelled as
rationals; an unavailable price is `Option.none`.  The JavaScript falsiness
test `!currentPrice` is modelled explicitly: a present price equal to `0`
takes the same branch as an absent one.
-/

/-- Trade type enum: `trade_type` is the string `put` or `call` in the source. -/
inductive TradeType where
  | put
  | call
deriving DecidableEq, Repr

/-- The fields of a trade that the dashboard reads.  `expiry_date` is
display-only for the core logic; `premium` is optional. -/
structure Trade where
  ticker : String
  strike_price : ℚ
  trade_type : TradeType
  expiry_date : String
  premium : Option ℚ
deriving DecidableEq, Repr

/-- Severity levels of an alert, ordered
`none < safe < low < medium < high < critical`. -/
inductive AlertLevel where
  | none
  | safe
  | low
  | medium
  | high
  | critical
deriving DecidableEq, Repr

/-- Numeric rank of a severity level under the order
`none < safe < low < medium < high < critical`. -/
def AlertLevel.rank : AlertLevel → ℕ
  | .none => 0
  | .safe => 1
  | .low => 2
  | .medium => 3
  | .high => 4
  | .critical => 5

/-- The record returned by `calculateAlertStatus`:
`{ level, message, color }`. -/
structure AlertStatus where
  level : AlertLevel
  message : String
  color : String
deriving DecidableEq, Repr

/-- `calculateAlertStatus(trade, currentPrice)`, Dashboard.js lines 271 to 288.
The guard `if (!currentPrice)` is true when the price is absent (`undefined`)
or equal to `0`, so both return `{none, "Price unavailable"}`.  Otherwise
`pctDiff = (strike - currentPrice) / strike * 100` is checked against the put
thresholds in descending order (first match wins), or the call windows. -/
def calculateAlertStatus (trade : Trade) (currentPrice : Option ℚ) : AlertStatus :=
  match currentPrice with
  | Option.none => ⟨.none, "Price unavailable", "bg-zinc-700"⟩
  | Option.some price =>
    if price = 0 then ⟨.none, "Price unavailable", "bg-zinc-700"⟩
    else
      let strike := trade.strike_price
      let pctDiff := (strike - price) / strike * 100
      match trade.trade_type with
      | .put =>
        if pctDiff ≥ 20 then ⟨.critical, "20%+ below", "bg-red-500"⟩
        else if pctDiff ≥ 15 then ⟨.high, "15%+ below", "bg-orange-500"⟩
        else if pctDiff ≥ 10 then ⟨.medium, "10%+ below", "bg-yellow-500"⟩
        else if pctDiff ≥ 5 then ⟨.low, "5%+ below", "bg-blue-500"⟩
        else ⟨.safe, "Safe", "bg-green-500/20"⟩
      | .call =>
        if pctDiff ≤ 1 ∧ pctDiff ≥ 0 then ⟨.critical, "Within 1%", "bg-red-500"⟩
        else if pctDiff ≤ 2 ∧ pctDiff ≥ 0 then ⟨.high, "Within 2%", "bg-orange-500"⟩
        else ⟨.safe, "Safe", "bg-green-500/20"⟩

/-- The mock-price table hard-coded in the catch branch of `fetchStockPrices`
(Dashboard.js lines 89 to 102). -/
def mockPrices : String → Option ℚ
  | "AAPL" => Option.some 175.50
  | "MSFT" => Option.some 380.20
  | "GOOGL" => Option.some 142.30
  | "AMZN" => Option.some 178.90
  | "TSLA" => Option.some 190.45
  | "NVDA" => Option.some 720.80
  | "META" => Option.some 468.35
  | "NFLX" => Option.some 610.20
  | "AMD" => Option.some 152.70
  | "SPY" => Option.some 485.60
  | "QQQ" => Option.some 415.30
  | "IWM" => Option.some 198.40
  | _ => Option.none

/-- The fallback price computed in the catch branch of `fetchStockPrices`
(Dashboard.js lines 104 to 109): a known ticker gets its mock price with a
jitter `variation = Math.random() * 0.04 - 0.02`; an unknown ticker gets
`Math.random() * 200 + 50`.  The `Math.random()` draw is the `rand`
parameter. -/
def fallbackPrice (rand : ℚ) (ticker : String) : ℚ :=
  match mockPrices ticker with
  | Option.some basePrice => basePrice * (1 + (rand * 0.04 - 0.02))
  | Option.none => rand * 200 + 50

/-- The price bound to a ticker by one loop iteration of `fetchStockPrices`:
the fetched price on success (`prices[ticker] = response.data.price`), the
mock fallback on failure (the catch branch). -/
def resolvedPrice (fetchPrice : String → Option ℚ) (rand : String → ℚ)
    (ticker : String) : ℚ :=
  match fetchPrice ticker with
  | Option.some price => price
  | Option.none => fallbackPrice (rand ticker) ticker

/-- One step of building a JavaScript `Set` by insertion: add the element if
it is not already present, keeping first-insertion order. -/
def dedupStep (acc : List String) (ticker : String) : List String :=
  if ticker ∈ acc then acc else acc ++ [ticker]

/-- `const uniqueTickers = [...new Set(trades.map(t => t.ticker))]`
(Dashboard.js line 79): the distinct tickers of the tracked trades, in
first-occurrence order. -/
def uniqueTickers (trades : List Trade) : List String :=
  (trades.map Trade.ticker).foldl dedupStep []

/-- `fetchStockPrices` (Dashboard.js lines 78 to 114): starting from the empty
object `prices = {}`, loop over `uniqueTickers`, binding each ticker to its
fetched price or, in the catch branch, to the mock fallback.  `fetchPrice`
is the external price source (`axios.get`, failure as `Option.none`); `rand`
supplies the `Math.random()` draw per ticker. -/
def fetchStockPrices (trades : List Trade) (fetchPrice : String → Option ℚ)
    (rand : String → ℚ) : List (String × ℚ) :=
  (uniqueTickers trades).foldl
    (fun prices ticker => prices ++ [(ticker, resolvedPrice fetchPrice rand ticker)]) []

/-- JavaScript object indexing `stockPrices[ticker]`: the value bound to the
first matching key, `Option.none` when the key is absent. -/
def lookupPrice : List (String × ℚ) → String → Option ℚ
  | [], _ => Option.none
  | (key, value) :: rest, ticker =>
      if ticker = key then Option.some value else lookupPrice rest ticker

/-- `setStockPrices(prices)` at the end of a tick (Dashboard.js line 113):
the quote mapping is replaced wholesale by the mapping built in this tick;
the previous mapping is not consulted. -/
def refreshTick (oldPrices : List (String × ℚ)) (trades : List Trade)
    (fetchPrice : String → Option ℚ) (rand : String → ℚ) : List (String × ℚ) :=
  fetchStockPrices trades fetchPrice rand

/-- The interval period passed to `setInterval` (Dashboard.js line 43),
in milliseconds; one display time-unit of the spec is 1000 ms. -/
def REFRESH_INTERVAL_MS : ℕ := 15000

/-- Observable state of the polling machinery of the Dashboard component:
the `stockPrices` state, the registered interval timer (with its period) if
any, and the results of fetch cycles started but not yet resolved. -/
structure PollState where
  stockPrices : List (String × ℚ)
  timer : Option ℕ
  inFlight : List (List (String × ℚ))
deriving DecidableEq, Repr

/-- Events acting on `PollState`: the interval firing (which starts a fetch
cycle), the effect cleanup `clearInterval(interval)`, and the resolution of
the oldest in-flight fetch cycle (its `setStockPrices(prices)` call). -/
inductive PollEvent where
  | timerTick (trades : List Trade) (fetchPrice : String → Option ℚ)
      (rand : String → ℚ)
  | cleanup
  | resolveFetch

/-- Transition function for the polling machinery, from Dashboard.js lines
39 to 47 and 78 to 114.  A timer tick starts a fetch cycle only while the
interval is registered; `cleanup` is `clearInterval`, which cancels the timer
and nothing else; resolving a fetch runs `setStockPrices(prices)`
unconditionally — the source has no cancellation guard in
`fetchStockPrices`. -/
def pollStep (s : PollState) : PollEvent → PollState
  | .timerTick trades fetchPrice rand =>
    match s.timer with
    | Option.some _ =>
        { s with inFlight := s.inFlight ++ [fetchStockPrices trades fetchPrice rand] }
    | Option.none => s
  | .cleanup => { s with timer := Option.none }
  | .resolveFetch =>
    match s.inFlight with
    | [] => s
    | result :: rest => { s with stockPrices := result, inFlight := rest }

/-- Body of the `useEffect` on `[trades]` (Dashboard.js lines 39 to 47): when
the tracked-trade list is non-empty, register the interval with period
`REFRESH_INTERVAL_MS` and immediately start one fetch cycle; otherwise do
nothing. -/
def tradesEffect (s : PollState) (trades : List Trade)
    (fetchPrice : String → Option ℚ) (rand : String → ℚ) : PollState :=
  if trades.length > 0 then
    { s with
        timer := Option.some REFRESH_INTERVAL_MS,
        inFlight := s.inFlight ++ [fetchStockPrices trades fetchPrice rand] }
  else s

/-- A change of the `trades` state: React runs the cleanup of the previous
effect (`clearInterval`) and then the effect body for the new list. -/
def tradesChanged (s : PollState) (newTrades : List Trade)
    (fetchPrice : String → Option ℚ) (rand : String → ℚ) : PollState :=
  tradesEffect (pollStep s PollEvent.cleanup) newTrades fetchPrice rand

/-- An invocation of `calculateAlertStatus` seen together with the component
state: the body of the source function (lines 271 to 288) only declares local
constants and returns a literal record, so it neither reads nor writes the
component state an invocation could observe. -/
def invokeClassify (s : PollState) (trade : Trade) (currentPrice : Option ℚ) :
    AlertStatus × PollState :=
  (calculateAlertStatus trade currentPrice, s)

/-- A sample put trade used in concrete instantiations. -/
def samplePut : Trade :=
  ⟨"AAPL", 100, TradeType.put, "2026-01-16", Option.some 2.5⟩

/-- A sample covered-call trade used in concrete instantiations. -/
def sampleCall : Trade :=
  ⟨"MSFT", 100, TradeType.call, "2026-01-16", Option.none⟩

/-- Concrete tracked trade on AAPL for refresh-cycle scenarios. -/
def tradeAAPL : Trade :=
  ⟨"AAPL", 170, TradeType.put, "2026-02-20", Option.none⟩

/-- Concrete tracked trade on MSFT for refresh-cycle scenarios. -/
def tradeMSFT : Trade :=
  ⟨"MSFT", 400, TradeType.call, "2026-02-20", Option.none⟩

/-- Concrete tracked trade on TSLA for the empty-to-nonempty scenario. -/
def tradeTSLA : Trade :=
  ⟨"TSLA", 200, TradeType.put, "2026-03-20", Option.none⟩

/-- Price source for tick 1 of the refresh scenario: both fetches succeed. -/
def tick1Fetch : String → Option ℚ
  | "AAPL" => Option.some 175.50
  | "MSFT" => Option.some 380.20
  | _ => Option.none

/-- Price source for tick 2 of the refresh scenario: AAPL succeeds, MSFT
fails. -/
def tick2Fetch : String → Option ℚ
  | "AAPL" => Option.some 176.10
  | _ => Option.none

/-- A fixed `Math.random()` oracle returning `0` for every ticker. -/
def zeroRand : String → ℚ := fun _ => 0

/-- The result of the fetch cycle that is in flight in the cancellation
scenario. -/
def pendingResult : List (String × ℚ) :=
  fetchStockPrices [tradeAAPL] tick1Fetch zeroRand

/-- Poll state at cancellation time: empty quote mapping, timer registered,
one fetch cycle in flight. -/
def cancelState : PollState :=
  ⟨[], Option.some REFRESH_INTERVAL_MS, [pendingResult]⟩

/-- Membership in the fold that builds a JavaScript `Set`: an element is in
the result exactly when it is in the accumulator or in the input list. -/
theorem mem_foldl_dedupStep (l : List String) : ∀ (acc : List String) (x : String),
    x ∈ l.foldl dedupStep acc ↔ x ∈ acc ∨ x ∈ l := by
  induction l with
  | nil => simp
  | cons a l ih =>
    intro acc x
    simp only [List.foldl_cons, List.mem_cons]
    rw [dedupStep]
    split_ifs with h
    · rw [ih]
      constructor
      · rintro (hx | hx)
        · exact Or.inl hx
        · exact Or.inr (Or.inr hx)
      · rintro (hx | hx | hx)
        · exact Or.inl hx
        · rw [hx]; exact Or.inl h
        · exact Or.inr hx
    · rw [ih]
      simp only [List.mem_append, List.mem_singleton]
      tauto

/-- The fold that builds a JavaScript `Set` never introduces a duplicate. -/
theorem nodup_foldl_dedupStep (l : List String) : ∀ acc : List String,
    acc.Nodup → (l.foldl dedupStep acc).Nodup := by
  induction l with
  | nil => intro acc h; simpa using h
  | cons a l ih =>
    intro acc h
    simp only [List.foldl_cons]
    rw [dedupStep]
    split_ifs with hmem
    · exact ih acc h
    · refine ih _ ?_
      simp [List.nodup_append, h, hmem]

/-- The distinct-ticker list is duplicate-free. -/
theorem uniqueTickers_nodup (trades : List Trade) : (uniqueTickers trades).Nodup :=
  nodup_foldl_dedupStep _ [] List.nodup_nil

/-- A ticker is among the distinct tickers exactly when some tracked trade
carries it. -/
theorem mem_uniqueTickers (trades : List Trade) (x : String) :
    x ∈ uniqueTickers trades ↔ x ∈ trades.map Trade.ticker := by
  rw [uniqueTickers, mem_foldl_dedupStep]
  simp

/-- Accumulating pairs `(ticker, g ticker)` with a left fold is the same as
mapping over the list. -/
theorem foldl_append_eq_map (g : String → ℚ) (l : List String) :
    ∀ acc : List (String × ℚ),
      l.foldl (fun prices ticker => prices ++ [(ticker, g ticker)]) acc =
        acc ++ l.map (fun ticker => (ticker, g ticker)) := by
  induction l with
  | nil => simp
  | cons a l ih =>
    intro acc
    simp only [List.foldl_cons, List.map_cons, ih]
    simp

/-- The per-tick loop of `fetchStockPrices` binds each distinct ticker to its
resolved price, in order. -/
theorem fetchStockPrices_eq_map (trades : List Trade)
    (fetchPrice : String → Option ℚ) (rand : String → ℚ) :
    fetchStockPrices trades fetchPrice rand =
      (uniqueTickers trades).map
        (fun ticker => (ticker, resolvedPrice fetchPrice rand ticker)) := by
  rw [fetchStockPrices]
  simpa using foldl_append_eq_map (resolvedPrice fetchPrice rand) (uniqueTickers trades) []

/-- Looking a present key up in a mapping of the shape
`l.map (fun ticker => (ticker, g ticker))` yields its resolved value. -/
theorem lookupPrice_map_of_mem (g : String → ℚ) (l : List String) (x : String)
    (hx : x ∈ l) :
    lookupPrice (l.map (fun ticker => (ticker, g ticker))) x = Option.some (g x) := by
  induction l with
  | nil => cases hx
  | cons a l ih =>
    simp only [List.map_cons, lookupPrice]
    by_cases hxa : x = a
    · subst hxa; simp
    · rw [if_neg hxa]
      exact ih ((List.mem_cons.mp hx).resolve_left hxa)

/-- Looking an absent key up in a mapping of the shape
`l.map (fun ticker => (ticker, g ticker))` yields nothing. -/
theorem lookupPrice_map_of_not_mem (g : String → ℚ) (l : List String) (x : String)
    (hx : x ∉ l) :
    lookupPrice (l.map (fun ticker => (ticker, g ticker))) x = Option.none := by
  induction l with
  | nil => rfl
  | cons a l ih =>
    simp only [List.map_cons, lookupPrice]
    rw [if_neg (fun h => hx (by rw [h]; exact List.mem_cons_self a l))]
    exact ih (fun h => hx (List.mem_cons_of_mem a h))

/-- For a put trade and a nonzero present price, the classifier is the
descending threshold cascade on `pctDiff`. -/
theorem calculateAlertStatus_put (t : Trade) (p : ℚ)
    (ht : t.trade_type = TradeType.put) (hp : p ≠ 0) :
    calculateAlertStatus t (Option.some p) =
      (if (t.strike_price - p) / t.strike_price * 100 ≥ 20 then
        ⟨AlertLevel.critical, "20%+ below", "bg-red-500"⟩
      else if (t.strike_price - p) / t.strike_price * 100 ≥ 15 then
        ⟨AlertLevel.high, "15%+ below", "bg-orange-500"⟩
      else if (t.strike_price - p) / t.strike_price * 100 ≥ 10 then
        ⟨AlertLevel.medium, "10%+ below", "bg-yellow-500"⟩
      else if (t.strike_price - p) / t.strike_price * 100 ≥ 5 then
        ⟨AlertLevel.low, "5%+ below", "bg-blue-500"⟩
      else ⟨AlertLevel.safe, "Safe", "bg-green-500/20"⟩) := by
  simp only [calculateAlertStatus, ht]
  rw [if_neg hp]

/-- For a call trade and a nonzero present price, the classifier is the two
call windows on `pctDiff`. -/
theorem calculateAlertStatus_call (t : Trade) (p : ℚ)
    (ht : t.trade_type = TradeType.call) (hp : p ≠ 0) :
    calculateAlertStatus t (Option.some p) =
      (if (t.strike_price - p) / t.strike_price * 100 ≤ 1 ∧
          (t.strike_price - p) / t.strike_price * 100 ≥ 0 then
        ⟨AlertLevel.critical, "Within 1%", "bg-red-500"⟩
      else if (t.strike_price - p) / t.strike_price * 100 ≤ 2 ∧
          (t.strike_price - p) / t.strike_price * 100 ≥ 0 then
        ⟨AlertLevel.high, "Within 2%", "bg-orange-500"⟩
      else ⟨AlertLevel.safe, "Safe", "bg-green-500/20"⟩) := by
  simp only [calculateAlertStatus, ht]
  rw [if_neg hp]

/-- C3: for every trade, an absent current price classifies as level `none`
with message "Price unavailable", and classification is total: the level of
any classification is one of the six defined severity levels. -/
theorem classify_absent_price_total (t : Trade) :
    calculateAlertStatus t Option.none =
      ⟨AlertLevel.none, "Price unavailable", "bg-zinc-700"⟩ ∧
    ∀ p : Option ℚ, (calculateAlertStatus t p).level ∈
      [AlertLevel.none, AlertLevel.safe, AlertLevel.low, AlertLevel.medium,
       AlertLevel.high, AlertLevel.critical] := by
  refine ⟨rfl, ?_⟩
  intro p
  generalize (calculateAlertStatus t p).level = l
  cases l <;> simp

/-- C10: for every trade with positive strike, a present price exactly `0` is
classified like an absent price (level `none`, "Price unavailable"), even
though `pctDiff` at price `0` would be `100`. -/
theorem zero_price_unavailable (t : Trade) (hs : 0 < t.strike_price) :
    calculateAlertStatus t (Option.some 0) =
      ⟨AlertLevel.none, "Price unavailable", "bg-zinc-700"⟩ ∧
    calculateAlertStatus t (Option.some 0) = calculateAlertStatus t Option.none ∧
    (t.strike_price - 0) / t.strike_price * 100 = 100 := by
  refine ⟨by simp [calculateAlertStatus], by simp [calculateAlertStatus], ?_⟩
  rw [sub_zero, div_self (ne_of_gt hs), one_mul]

/-- Witness for C10 at the sample put trade with strike 100. -/
theorem zero_price_unavailable_witness :
    (0 : ℚ) < samplePut.strike_price ∧
    calculateAlertStatus samplePut (Option.some 0) =
      ⟨AlertLevel.none, "Price unavailable", "bg-zinc-700"⟩ :=
  ⟨by norm_num [samplePut], (zero_price_unavailable samplePut (by norm_num [samplePut])).1⟩

/-- C9: classification is pure and deterministic — an invocation leaves the
component state unchanged, a second invocation with identical inputs returns
the identical output, and the output does not depend on the component
state. -/
theorem classify_pure_deterministic (s1 s2 : PollState) (t t2 : Trade)
    (p p2 : Option ℚ) (ht : t = t2) (hp : p = p2) :
    (invokeClassify s1 t p).2 = s1 ∧
    (invokeClassify s1 t p).1 =
      (invokeClassify ((invokeClassify s1 t p).2) t2 p2).1 ∧
    (invokeClassify s1 t p).1 = (invokeClassify s2 t p).1 := by
  subst ht
  subst hp
  exact ⟨rfl, rfl, rfl⟩

/-- Witness for C9 at a concrete state, trade and price. -/
theorem classify_pure_deterministic_witness :
    samplePut = samplePut ∧ Option.some (80 : ℚ) = Option.some 80 ∧
    (invokeClassify cancelState samplePut (Option.some 80)).2 = cancelState ∧
    (invokeClassify cancelState samplePut (Option.some 80)).1 =
      (invokeClassify ((invokeClassify cancelState samplePut (Option.some 80)).2)
        samplePut (Option.some 80)).1 :=
  ⟨rfl, rfl,
    (classify_pure_deterministic cancelState cancelState samplePut samplePut
      (Option.some 80) (Option.some 80) rfl rfl).1,
    (classify_pure_deterministic cancelState cancelState samplePut samplePut
      (Option.some 80) (Option.some 80) rfl rfl).2.1⟩

/-- C1 (amended: the present price must also be nonzero): put classification
follows the descending thresholds on `pctDiff`, first match winning. -/
theorem put_classification (t : Trade) (p : ℚ) (ht : t.trade_type = TradeType.put)
    (hs : 0 < t.strike_price) (hp : p ≠ 0) :
    ((t.strike_price - p) / t.strike_price * 100 ≥ 20 →
      calculateAlertStatus t (Option.some p) =
        ⟨AlertLevel.critical, "20%+ below", "bg-red-500"⟩) ∧
    (15 ≤ (t.strike_price - p) / t.strike_price * 100 ∧
        (t.strike_price - p) / t.strike_price * 100 < 20 →
      calculateAlertStatus t (Option.some p) =
        ⟨AlertLevel.high, "15%+ below", "bg-orange-500"⟩) ∧
    (10 ≤ (t.strike_price - p) / t.strike_price * 100 ∧
        (t.strike_price - p) / t.strike_price * 100 < 15 →
      calculateAlertStatus t (Option.some p) =
        ⟨AlertLevel.medium, "10%+ below", "bg-yellow-500"⟩) ∧
    (5 ≤ (t.strike_price - p) / t.strike_price * 100 ∧
        (t.strike_price - p) / t.strike_price * 100 < 10 →
      calculateAlertStatus t (Option.some p) =
        ⟨AlertLevel.low, "5%+ below", "bg-blue-500"⟩) ∧
    ((t.strike_price - p) / t.strike_price * 100 < 5 →
      calculateAlertStatus t (Option.some p) =
        ⟨AlertLevel.safe, "Safe", "bg-green-500/20"⟩) := by
  rw [calculateAlertStatus_put t p ht hp]
  set pd := (t.strike_price - p) / t.strike_price * 100 with hpddef
  refine ⟨fun h => if_pos h, ?_, ?_, ?_, ?_⟩
  · rintro ⟨h1, h2⟩
    rw [if_neg (by intro h; exact absurd h (by linarith)), if_pos (by linarith : pd ≥ 15)]
  · rintro ⟨h1, h2⟩
    rw [if_neg (by intro h; exact absurd h (by linarith)),
      if_neg (by intro h; exact absurd h (by linarith)), if_pos (by linarith : pd ≥ 10)]
  · rintro ⟨h1, h2⟩
    rw [if_neg (by intro h; exact absurd h (by linarith)),
      if_neg (by intro h; exact absurd h (by linarith)),
      if_neg (by intro h; exact absurd h (by linarith)), if_pos (by linarith : pd ≥ 5)]
  · intro h1
    rw [if_neg (by intro h; exact absurd h (by linarith)),
      if_neg (by intro h; exact absurd h (by linarith)),
      if_neg (by intro h; exact absurd h (by linarith)),
      if_neg (by intro h; exact absurd h (by linarith))]

/-- Witness for C1: the boundary examples strike 100 with prices 80
(`pctDiff` exactly 20, critical) and 80.01 (`pctDiff` just under 20, high). -/
theorem put_classification_witness :
    (samplePut.trade_type = TradeType.put ∧ (0 : ℚ) < samplePut.strike_price ∧
      (80 : ℚ) ≠ 0 ∧
      (samplePut.strike_price - 80) / samplePut.strike_price * 100 ≥ 20 ∧
      calculateAlertStatus samplePut (Option.some 80) =
        ⟨AlertLevel.critical, "20%+ below", "bg-red-500"⟩) ∧
    ((15 : ℚ) ≤ (samplePut.strike_price - 80.01) / samplePut.strike_price * 100 ∧
      (samplePut.strike_price - 80.01) / samplePut.strike_price * 100 < 20 ∧
      calculateAlertStatus samplePut (Option.some 80.01) =
        ⟨AlertLevel.high, "15%+ below", "bg-orange-500"⟩) := by
  constructor
  · refine ⟨rfl, by norm_num [samplePut], by norm_num, by norm_num [samplePut], ?_⟩
    exact (put_classification samplePut 80 rfl (by norm_num [samplePut])
      (by norm_num)).1 (by norm_num [samplePut])
  · refine ⟨by norm_num [samplePut], by norm_num [samplePut], ?_⟩
    exact (put_classification samplePut 80.01 rfl (by norm_num [samplePut])
      (by norm_num)).2.1 ⟨by norm_num [samplePut], by norm_num [samplePut]⟩

/-- Counterexample for C1 as stated: at the present price `0` the claim
demands critical (`pctDiff = 100 ≥ 20`) but the code returns level `none`. -/
theorem put_zero_price_counterexample :
    samplePut.trade_type = TradeType.put ∧ (0 : ℚ) < samplePut.strike_price ∧
    (samplePut.strike_price - 0) / samplePut.strike_price * 100 ≥ 20 ∧
    calculateAlertStatus samplePut (Option.some 0) =
      ⟨AlertLevel.none, "Price unavailable", "bg-zinc-700"⟩ ∧
    (calculateAlertStatus samplePut (Option.some 0)).level ≠ AlertLevel.critical := by
  refine ⟨rfl, by norm_num [samplePut], by norm_num [samplePut],
    by simp [calculateAlertStatus], by simp [calculateAlertStatus]⟩

/-- C2 (amended: the present price must also be nonzero): call classification
returns critical within 1%, high within 2%, and safe otherwise; a price above
the strike gives a negative `pctDiff` and hence safe. -/
theorem call_classification (t : Trade) (p : ℚ) (ht : t.trade_type = TradeType.call)
    (hs : 0 < t.strike_price) (hp : p ≠ 0) :
    (0 ≤ (t.strike_price - p) / t.strike_price * 100 ∧
        (t.strike_price - p) / t.strike_price * 100 ≤ 1 →
      calculateAlertStatus t (Option.some p) =
        ⟨AlertLevel.critical, "Within 1%", "bg-red-500"⟩) ∧
    (1 < (t.strike_price - p) / t.strike_price * 100 ∧
        (t.strike_price - p) / t.strike_price * 100 ≤ 2 →
      calculateAlertStatus t (Option.some p) =
        ⟨AlertLevel.high, "Within 2%", "bg-orange-500"⟩) ∧
    ((t.strike_price - p) / t.strike_price * 100 < 0 ∨
        2 < (t.strike_price - p) / t.strike_price * 100 →
      calculateAlertStatus t (Option.some p) =
        ⟨AlertLevel.safe, "Safe", "bg-green-500/20"⟩) ∧
    (t.strike_price < p →
      calculateAlertStatus t (Option.some p) =
        ⟨AlertLevel.safe, "Safe", "bg-green-500/20"⟩) := by
  rw [calculateAlertStatus_call t p ht hp]
  set pd := (t.strike_price - p) / t.strike_price * 100 with hpddef
  have hneg : t.strike_price < p → pd < 0 := by
    intro hlt
    have h1 : (t.strike_price - p) / t.strike_price < 0 :=
      div_neg_of_neg_of_pos (by linarith) hs
    calc pd = (t.strike_price - p) / t.strike_price * 100 := by rw [hpddef]
    _ < 0 := mul_neg_of_neg_of_pos h1 (by norm_num)
  refine ⟨?_, ?_, ?_, ?_⟩
  · rintro ⟨h1, h2⟩
    rw [if_pos ⟨h2, h1⟩]
  · rintro ⟨h1, h2⟩
    rw [if_neg (by rintro ⟨ha, hb⟩; linarith), if_pos ⟨h2, by linarith⟩]
  · rintro (h1 | h1)
    · rw [if_neg (by rintro ⟨ha, hb⟩; linarith), if_neg (by rintro ⟨ha, hb⟩; linarith)]
    · rw [if_neg (by rintro ⟨ha, hb⟩; linarith), if_neg (by rintro ⟨ha, hb⟩; linarith)]
  · intro hlt
    have h1 := hneg hlt
    rw [if_neg (by rintro ⟨ha, hb⟩; linarith), if_neg (by rintro ⟨ha, hb⟩; linarith)]

/-- Witness for C2: strike 100 with prices 99, 98, 97 yields critical, high,
safe. -/
theorem call_classification_witness :
    (sampleCall.trade_type = TradeType.call ∧ (0 : ℚ) < sampleCall.strike_price ∧
      (0 : ℚ) ≤ (sampleCall.strike_price - 99) / sampleCall.strike_price * 100 ∧
      (sampleCall.strike_price - 99) / sampleCall.strike_price * 100 ≤ 1 ∧
      calculateAlertStatus sampleCall (Option.some 99) =
        ⟨AlertLevel.critical, "Within 1%", "bg-red-500"⟩) ∧
    (calculateAlertStatus sampleCall (Option.some 98) =
      ⟨AlertLevel.high, "Within 2%", "bg-orange-500"⟩) ∧
    (calculateAlertStatus sampleCall (Option.some 97) =
      ⟨AlertLevel.safe, "Safe", "bg-green-500/20"⟩) := by
  refine ⟨⟨rfl, by norm_num [sampleCall], by norm_num [sampleCall],
    by norm_num [sampleCall], ?_⟩, ?_, ?_⟩
  · exact (call_classification sampleCall 99 rfl (by norm_num [sampleCall])
      (by norm_num)).1 ⟨by norm_num [sampleCall], by norm_num [sampleCall]⟩
  · exact (call_classification sampleCall 98 rfl (by norm_num [sampleCall])
      (by norm_num)).2.1 ⟨by norm_num [sampleCall], by norm_num [sampleCall]⟩
  · exact (call_classification sampleCall 97 rfl (by norm_num [sampleCall])
      (by norm_num)).2.2.1 (Or.inr (by norm_num [sampleCall]))

/-- Counterexample for C2 as stated: at the present price `0` the claim
demands safe (`pctDiff = 100` is outside both windows) but the code returns
level `none`. -/
theorem call_zero_price_counterexample :
    sampleCall.trade_type = TradeType.call ∧ (0 : ℚ) < sampleCall.strike_price ∧
    2 < (sampleCall.strike_price - 0) / sampleCall.strike_price * 100 ∧
    (calculateAlertStatus sampleCall (Option.some 0)).level = AlertLevel.none ∧
    (calculateAlertStatus sampleCall (Option.some 0)).level ≠ AlertLevel.safe := by
  refine ⟨rfl, by norm_num [sampleCall], by norm_num [sampleCall],
    by simp [calculateAlertStatus], by simp [calculateAlertStatus]⟩

/-- C5 (amended: the lower price must be nonzero): for a put, a lower present
price never yields a strictly lower severity rank. -/
theorem put_severity_monotonic (t : Trade) (p1 p2 : ℚ)
    (ht : t.trade_type = TradeType.put) (hs : 0 < t.strike_price)
    (hlt : p2 < p1) (hp2 : p2 ≠ 0) :
    ((calculateAlertStatus t (Option.some p1)).level).rank ≤
      ((calculateAlertStatus t (Option.some p2)).level).rank := by
  by_cases hp1 : p1 = 0
  · subst hp1
    have h0 : calculateAlertStatus t (Option.some 0) =
        ⟨AlertLevel.none, "Price unavailable", "bg-zinc-700"⟩ := by
      simp [calculateAlertStatus]
    rw [h0]
    exact Nat.zero_le _
  · have hs0 : t.strike_price ≠ 0 := ne_of_gt hs
    have key : (t.strike_price - p2) / t.strike_price * 100 -
        (t.strike_price - p1) / t.strike_price * 100 =
        (p1 - p2) / t.strike_price * 100 := by
      field_simp
      ring
    have pos : 0 < (p1 - p2) / t.strike_price * 100 :=
      mul_pos (div_pos (by linarith) hs) (by norm_num)
    have hpd : (t.strike_price - p1) / t.strike_price * 100 <
        (t.strike_price - p2) / t.strike_price * 100 := by linarith
    rw [calculateAlertStatus_put t p1 ht hp1, calculateAlertStatus_put t p2 ht hp2]
    split_ifs <;> simp [AlertLevel.rank] <;> linarith

/-- Witness for C5: strike 100, prices 90 (medium, rank 3) and 50 (critical,
rank 5). -/
theorem put_severity_monotonic_witness :
    samplePut.trade_type = TradeType.put ∧ (0 : ℚ) < samplePut.strike_price ∧
    (50 : ℚ) < 90 ∧ (50 : ℚ) ≠ 0 ∧
    ((calculateAlertStatus samplePut (Option.some 90)).level).rank ≤
      ((calculateAlertStatus samplePut (Option.some 50)).level).rank :=
  ⟨rfl, by norm_num [samplePut], by norm_num, by norm_num,
    put_severity_monotonic samplePut 90 50 rfl (by norm_num [samplePut])
      (by norm_num) (by norm_num)⟩

/-- Counterexample for C5 as stated: with prices 50 and 0 (both present,
50 > 0) the severity at the lower price 0 is `none` (rank 0), strictly below
critical (rank 5) at price 50. -/
theorem put_monotonic_zero_counterexample :
    samplePut.trade_type = TradeType.put ∧ (0 : ℚ) < samplePut.strike_price ∧
    (0 : ℚ) < 50 ∧
    ¬ (((calculateAlertStatus samplePut (Option.some 50)).level).rank ≤
        ((calculateAlertStatus samplePut (Option.some 0)).level).rank) := by
  refine ⟨rfl, by norm_num [samplePut], by norm_num, ?_⟩
  have h1 : calculateAlertStatus samplePut (Option.some 50) =
      ⟨AlertLevel.critical, "20%+ below", "bg-red-500"⟩ := by
    norm_num [calculateAlertStatus, samplePut]
  have h2 : calculateAlertStatus samplePut (Option.some 0) =
      ⟨AlertLevel.none, "Price unavailable", "bg-zinc-700"⟩ := by
    simp [calculateAlertStatus]
  rw [h1, h2]
  simp [AlertLevel.rank]

/-- C4 (amended): on fetch failure the ticker is not absent — the catch
branch binds it to the mock-derived fallback price — while the mapping is
still rebuilt from scratch each tick, so no stale quote from a previous tick
is carried forward. -/
theorem fetch_failure_fallback (trades : List Trade)
    (fetchPrice : String → Option ℚ) (rand : String → ℚ) (tk : String)
    (hmem : tk ∈ uniqueTickers trades) (hfail : fetchPrice tk = Option.none) :
    lookupPrice (fetchStockPrices trades fetchPrice rand) tk =
      Option.some (fallbackPrice (rand tk) tk) ∧
    ∀ oldPrices, refreshTick oldPrices trades fetchPrice rand =
      fetchStockPrices trades fetchPrice rand := by
  constructor
  · rw [fetchStockPrices_eq_map, lookupPrice_map_of_mem _ _ _ hmem]
    simp [resolvedPrice, hfail]
  · intro o
    rfl

/-- Witness for C4 (amended): tracked AAPL and MSFT, the MSFT fetch fails,
yet MSFT is bound to its fallback price. -/
theorem fetch_failure_fallback_witness :
    ("MSFT" ∈ uniqueTickers [tradeAAPL, tradeMSFT]) ∧
    tick2Fetch "MSFT" = Option.none ∧
    lookupPrice (fetchStockPrices [tradeAAPL, tradeMSFT] tick2Fetch zeroRand) "MSFT" =
      Option.some (fallbackPrice (zeroRand "MSFT") "MSFT") := by
  have hmem : "MSFT" ∈ uniqueTickers [tradeAAPL, tradeMSFT] := by
    simp [uniqueTickers, dedupStep, tradeAAPL, tradeMSFT]
  exact ⟨hmem, rfl,
    (fetch_failure_fallback [tradeAAPL, tradeMSFT] tick2Fetch zeroRand "MSFT" hmem rfl).1⟩

/-- Counterexample for C4 as stated: in the two-ticker scenario where the
AAPL fetch succeeds and the MSFT fetch fails, the resulting mapping has AAPL
updated and MSFT present (bound to the mock fallback), not absent. -/
theorem fetch_failure_not_absent :
    tick2Fetch "MSFT" = Option.none ∧
    lookupPrice (fetchStockPrices [tradeAAPL, tradeMSFT] tick2Fetch zeroRand) "AAPL" =
      Option.some 176.10 ∧
    lookupPrice (fetchStockPrices [tradeAAPL, tradeMSFT] tick2Fetch zeroRand) "MSFT" ≠
      Option.none := by
  refine ⟨rfl, ?_, ?_⟩ <;>
    simp [fetchStockPrices, uniqueTickers, dedupStep, tradeAAPL, tradeMSFT,
      tick2Fetch, zeroRand, resolvedPrice, lookupPrice]

/-- C6: each tick deduplicates the tracked tickers, fetches each distinct
ticker exactly once (the mapping has exactly one entry per distinct ticker,
in loop order), and replaces the quote mapping wholesale: tickers no longer
tracked are absent and the old mapping is never consulted. -/
theorem refresh_tick_wholesale (trades : List Trade)
    (fetchPrice : String → Option ℚ) (rand : String → ℚ) :
    (uniqueTickers trades).Nodup ∧
    (∀ tk, tk ∈ uniqueTickers trades ↔ tk ∈ trades.map Trade.ticker) ∧
    (fetchStockPrices trades fetchPrice rand).map Prod.fst = uniqueTickers trades ∧
    (∀ tk, tk ∉ uniqueTickers trades →
      lookupPrice (fetchStockPrices trades fetchPrice rand) tk = Option.none) ∧
    ∀ oldPrices, refreshTick oldPrices trades fetchPrice rand =
      fetchStockPrices trades fetchPrice rand := by
  refine ⟨uniqueTickers_nodup trades, mem_uniqueTickers trades, ?_, ?_, fun o => rfl⟩
  · rw [fetchStockPrices_eq_map, List.map_map]
    have hid : (Prod.fst ∘ fun ticker => (ticker, resolvedPrice fetchPrice rand ticker)) =
        id := by
      funext x
      rfl
    rw [hid, List.map_id]
  · intro tk h
    rw [fetchStockPrices_eq_map]
    exact lookupPrice_map_of_not_mem _ _ _ h

/-- Witness for C6: with AAPL and MSFT tracked, a ticker not tracked (TSLA)
is absent from the fresh mapping. -/
theorem refresh_tick_wholesale_witness :
    ("TSLA" ∉ uniqueTickers [tradeAAPL, tradeMSFT]) ∧
    lookupPrice (fetchStockPrices [tradeAAPL, tradeMSFT] tick1Fetch zeroRand) "TSLA" =
      Option.none := by
  have h : "TSLA" ∉ uniqueTickers [tradeAAPL, tradeMSFT] := by
    simp [uniqueTickers, dedupStep, tradeAAPL, tradeMSFT]
  exact ⟨h,
    (refresh_tick_wholesale [tradeAAPL, tradeMSFT] tick1Fetch zeroRand).2.2.2.1 "TSLA" h⟩

/-- C7 (amended): after `clearInterval` no further timer-driven fetch starts,
but the result of a fetch in flight at cancellation time is not discarded —
when it resolves it still overwrites the quote mapping. -/
theorem cancellation_no_further_fetch_inflight_applied (s : PollState)
    (trades : List Trade) (fetchPrice : String → Option ℚ) (rand : String → ℚ)
    (result : List (String × ℚ)) (rest : List (List (String × ℚ)))
    (hin : s.inFlight = result :: rest) :
    (pollStep s PollEvent.cleanup).timer = Option.none ∧
    pollStep (pollStep s PollEvent.cleanup)
        (PollEvent.timerTick trades fetchPrice rand) =
      pollStep s PollEvent.cleanup ∧
    (pollStep (pollStep s PollEvent.cleanup) PollEvent.resolveFetch).stockPrices =
      result := by
  refine ⟨rfl, ?_, ?_⟩ <;> simp [pollStep, hin]

/-- Witness for C7 (amended): the concrete cancellation scenario with one
fetch in flight. -/
theorem cancellation_witness :
    cancelState.inFlight = pendingResult :: [] ∧
    ((pollStep cancelState PollEvent.cleanup).timer = Option.none ∧
      pollStep (pollStep cancelState PollEvent.cleanup)
          (PollEvent.timerTick [tradeAAPL] tick1Fetch zeroRand) =
        pollStep cancelState PollEvent.cleanup ∧
      (pollStep (pollStep cancelState PollEvent.cleanup)
          PollEvent.resolveFetch).stockPrices = pendingResult) :=
  ⟨rfl, cancellation_no_further_fetch_inflight_applied cancelState [tradeAAPL]
    tick1Fetch zeroRand pendingResult [] rfl⟩

/-- Counterexample for C7 as stated: the cycle is cancelled while one fetch
is in flight; when that fetch resolves, the quote mapping changes — the
source has no guard discarding the in-flight result. -/
theorem cancellation_inflight_mutates :
    (pollStep cancelState PollEvent.cleanup).stockPrices = [] ∧
    (pollStep (pollStep cancelState PollEvent.cleanup)
        PollEvent.resolveFetch).stockPrices ≠
      (pollStep cancelState PollEvent.cleanup).stockPrices := by
  constructor
  · rfl
  · simp [pollStep, cancelState, pendingResult, fetchStockPrices, uniqueTickers,
      dedupStep, tradeAAPL, resolvedPrice, tick1Fetch, zeroRand]

/-- C8: when the tracked-trade list becomes non-empty the effect immediately
starts a fetch cycle (not waiting for a timer tick) and registers the
recurring interval with the 15000 ms period; when it becomes empty the timer
is cancelled. -/
theorem refresh_cycle_start_stop (s : PollState) (newTrades : List Trade)
    (fetchPrice : String → Option ℚ) (rand : String → ℚ) :
    (newTrades ≠ [] →
      (tradesChanged s newTrades fetchPrice rand).timer =
        Option.some REFRESH_INTERVAL_MS ∧
      (tradesChanged s newTrades fetchPrice rand).inFlight =
        s.inFlight ++ [fetchStockPrices newTrades fetchPrice rand] ∧
      REFRESH_INTERVAL_MS = 15000) ∧
    (newTrades = [] →
      (tradesChanged s newTrades fetchPrice rand).timer = Option.none) := by
  constructor
  · intro h
    have hl : 0 < newTrades.length := List.length_pos.mpr h
    refine ⟨?_, ?_, rfl⟩ <;> simp [tradesChanged, tradesEffect, pollStep, hl]
  · intro h
    subst h
    simp [tradesChanged, tradesEffect, pollStep]

/-- Witness for C8: the tracked set transitions from empty to the single
trade on TSLA. -/
theorem refresh_cycle_start_stop_witness :
    ([tradeTSLA] ≠ ([] : List Trade)) ∧
    (tradesChanged ⟨[], Option.none, []⟩ [tradeTSLA] tick1Fetch zeroRand).timer =
      Option.some REFRESH_INTERVAL_MS ∧
    (tradesChanged ⟨[], Option.none, []⟩ [tradeTSLA] tick1Fetch zeroRand).inFlight =
      [] ++ [fetchStockPrices [tradeTSLA] tick1Fetch zeroRand] := by
  have h : [tradeTSLA] ≠ ([] : List Trade) := by simp
  obtain ⟨h1, h2, h3⟩ :=
    (refresh_cycle_start_stop ⟨[], Option.none, []⟩ [tradeTSLA] tick1Fetch zeroRand).1 h
  exact ⟨h, h1, h2⟩
